import Mathlib

/-!
Verification of the `st-hd-avatar` browser extension (HD Avatar for SillyTavern).

The repository contains two evolutionary versions of the same script:
`src/index.js` (the lazy version, using an IntersectionObserver gate) and an
earlier unnamed version (`src/unnamed/part_000`).  This file is a shallow
embedding of both:

* a model of the JavaScript string/URL primitives the scripts use
  (`new URL`, `URLSearchParams.get`, `String.prototype.split`, `includes`,
  `endsWith`, matching of the two fixed thumbnail-path regular expressions,
  and JS truthiness);
* the pure URL translator `toHDSrc` of each version;
* the per-image stateful pipeline of the lazy version (`scheduleUpgrade`,
  `swapSrc`, the one-shot error handlers, the IntersectionObserver callback
  and the MutationObserver callback), modelled as a step function over an
  explicit image state, driven by an event trace.

Modelling notes.

* `new URL(base)` is modelled by `parseURL`, which keeps exactly the
  components the scripts read: `pathname` and the query parameters
  (decoded as by `URLSearchParams`).  The scripts build the base as
  `location.origin + (leading slash) + src` when `src` does not start with
  `"http"`, so for such inputs the origin never influences `pathname` and
  the model parses the path/query of `src` directly.  Browser path
  canonicalization (dot-segment removal, percent re-encoding, backslash
  conversion) is not modelled; the theorems below either take the parsed
  components as hypotheses or use already canonical concrete inputs.
  Percent-decoding is modelled at the ASCII level (a `%HH` pair becomes the
  character with code `HH`); multi-byte UTF-8 sequences are out of scope of
  every statement below.

* MutationObserver callbacks are delivered asynchronously, after the task
  that mutated the `src` attribute has finished.  Every task in these
  scripts performs at most one `src` assignment per fired listener and does
  not read the image again afterwards, so delivering the record right after
  the assigning task is behaviour-equivalent; the model folds the observer
  callback (`reactSrc`) into every step that assigns `src`.

* The scripts never raise: every operation is modelled as a total Lean
  function returning the new image state, mirroring the fire-and-forget
  design (errors are expressed only through the state flags).
-/

namespace HDAvatar

/-! ## JS string primitives -/

/-- JS truthiness of a nullable string (`undefined`/`null` and `""` are falsy). -/
def jsTruthy : Option String → Bool
  | none => false
  | some s => if s = "" then false else true

/-- JS `a || b` on nullable strings: `b` whenever `a` is falsy. -/
def jsOrS (a b : Option String) : Option String :=
  if jsTruthy a then a else b

/-- JS `a || b` on numbers, where `0` is falsy. -/
def jsOrNat (a b : Nat) : Nat :=
  if a = 0 then b else a

/-- Prefix test on character lists (structural in the pattern, so that it
reduces definitionally also when the tail of the scanned list is symbolic). -/
def isPre : List Char → List Char → Bool
  | [], _ => true
  | a :: as, l =>
    match l with
    | [] => false
    | b :: bs => if a = b then isPre as bs else false

/-- Split a character list at every occurrence of the character `sep`
(the list analogue of splitting a string on a single-character separator). -/
def splitChar (sep : Char) : List Char → List (List Char)
  | [] => [[]]
  | c :: rest =>
    if c = sep then [] :: splitChar sep rest
    else
      match splitChar sep rest with
      | [] => [[c]]
      | h :: t => (c :: h) :: t

/-- Break a character list at the first occurrence of `sep`: the part before
it, and (when `sep` occurs) the part after it. -/
def breakAt (sep : Char) : List Char → List Char × Option (List Char)
  | [] => ([], none)
  | c :: rest =>
    if c = sep then ([], some rest)
    else
      let pr := breakAt sep rest
      (c :: pr.1, pr.2)

/-- The suffix following the first occurrence of `pat` as a sublist
(leftmost match), or `none` when `pat` does not occur. -/
def findSub (pat : List Char) : List Char → Option (List Char)
  | [] => if isPre pat [] then some [] else none
  | c :: rest =>
    if isPre pat (c :: rest) then some (List.drop pat.length (c :: rest))
    else findSub pat rest

/-- The prefix up to (excluding) the first occurrence of `pat`, or the whole
list when `pat` does not occur. -/
def untilSub (pat : List Char) : List Char → List Char
  | [] => []
  | c :: rest =>
    if isPre pat (c :: rest) then []
    else c :: untilSub pat rest

/-- JS `s.startsWith(pre)`. -/
def strStartsWith (s pre : String) : Bool :=
  isPre pre.data s.data

/-- JS `s.endsWith(suf)`. -/
def strEndsWith (s suf : String) : Bool :=
  isPre suf.data.reverse s.data.reverse

/-- JS `s.includes(sub)`. -/
def jsIncludes (s sub : String) : Bool :=
  (findSub sub.data s.data).isSome

/-- JS `s.split(sep)[1]`: the text between the first and the second
occurrence of `sep` (to the end of the string when `sep` occurs only once).
When `sep` does not occur at all, `split(sep)[1]` is `undefined` and the
scripts interpolate it into a template literal, which coerces it to the
string `"undefined"`. -/
def jsSplitSecond (s sep : String) : String :=
  match findSub sep.data s.data with
  | none => "undefined"
  | some tail => String.mk (untilSub sep.data tail)

/-- Matching of the fixed regular expressions `/\/thumbnails\/avatar\/(.+)$/`
and `/\/thumbnails\/persona\/(.+)$/` used by the scripts, parameterized by
the literal part `pat` (e.g. `"/thumbnails/avatar/"`): the leftmost
occurrence of `pat` followed by at least one character matches, and the
greedy capture group `(.+)$` is everything after that occurrence.  (If the
first occurrence of `pat` ends exactly at the end of the string, no later
occurrence can provide a non-empty tail, so there is no match.) -/
def reMatchTail (pat p : String) : Option String :=
  match findSub pat.data p.data with
  | none => none
  | some tail => if tail = [] then none else some (String.mk tail)

/-! ## URL parsing model -/

/-- The components of a parsed URL that the scripts read: the path, and the
query parameters in order (already decoded, as read by
`url.searchParams.get`). -/
structure URLParts where
  pathname : String
  params : List (String × String)
deriving DecidableEq

/-- Hex digit value, for percent-decoding. -/
def hexVal? (c : Char) : Option Nat :=
  if '0' ≤ c ∧ c ≤ '9' then some (c.toNat - '0'.toNat)
  else if 'a' ≤ c ∧ c ≤ 'f' then some (c.toNat - 'a'.toNat + 10)
  else if 'A' ≤ c ∧ c ≤ 'F' then some (c.toNat - 'A'.toNat + 10)
  else none

/-- `application/x-www-form-urlencoded` decoding of a query component, as
performed by `URLSearchParams`: `+` becomes a space, `%HH` becomes the
character with code `HH` (ASCII model), and an invalid `%` sequence is kept
literally. -/
def formDecode : List Char → List Char
  | [] => []
  | '+' :: rest => ' ' :: formDecode rest
  | '%' :: a :: b :: rest =>
    match hexVal? a, hexVal? b with
    | some x, some y => Char.ofNat (16 * x + y) :: formDecode rest
    | _, _ => '%' :: formDecode (a :: b :: rest)
  | c :: rest => c :: formDecode rest

/-- Parse a raw query string (the part after `?`) into ordered name/value
pairs, as `URLSearchParams` does: split on `&`, skip empty segments, split
each segment at the first `=` (missing value means `""`), decode both
sides. -/
def parseQuery (q : List Char) : List (String × String) :=
  (splitChar '&' q).filterMap fun seg =>
    if seg = [] then none
    else
      let pr := breakAt '=' seg
      some (String.mk (formDecode pr.1), String.mk (formDecode (pr.2.getD [])))

/-- Split a path-and-beyond character list into `pathname` and parsed query:
the fragment (after the first `#`) is dropped, the query starts at the
first `?`. -/
def parsePathQuery (s : List Char) : URLParts :=
  let beforeFrag := (breakAt '#' s).1
  let pr := breakAt '?' beforeFrag
  { pathname := String.mk pr.1
    params := match pr.2 with
      | none => []
      | some q => parseQuery q }

/-- Split off the authority (host) part: characters up to the first `/`,
`?` or `#`. -/
def hostSplit : List Char → List Char × List Char
  | [] => ([], [])
  | c :: rest =>
    if c = '/' ∨ c = '?' ∨ c = '#' then ([], c :: rest)
    else
      let pr := hostSplit rest
      (c :: pr.1, pr.2)

/-- Model of `new URL` on an absolute string starting with `"http"`:
an `http://` or `https://` scheme followed by a non-empty host, then the
path/query/fragment.  Other strings starting with `"http"` (no `://`, or an
empty host) make `new URL` throw, modelled as `none`. -/
def parseAbsolute (s : List Char) : Option URLParts :=
  let afterScheme : Option (List Char) :=
    if isPre "https://".data s then some (s.drop 8)
    else if isPre "http://".data s then some (s.drop 7)
    else none
  match afterScheme with
  | none => none
  | some rest =>
    let pr := hostSplit rest
    if pr.1 = [] then none
    else
      some (parsePathQuery (match pr.2 with
        | '/' :: t => '/' :: t
        | t => '/' :: t))

/-- Model of the URL construction both scripts perform:
`new URL(src.startsWith('http') ? src : location.origin + (src.startsWith('/') ? '' : '/') + src)`.
For a non-`http` source the origin contributes nothing to `pathname`, so the
model parses the (slash-prefixed) source directly; such constructions do not
throw. -/
def parseURL (src : String) : Option URLParts :=
  if strStartsWith src "http" then parseAbsolute src.data
  else some (parsePathQuery (if strStartsWith src "/" then src.data else '/' :: src.data))

/-- `url.searchParams.get(k)`: the value of the first parameter named `k`,
or `null` when there is none. -/
def searchGet (u : URLParts) (k : String) : Option String :=
  (u.params.find? fun p => p.1 = k).map fun p => p.2

/-- The query-form recognition condition of the spec's Translator contract
on a parsed URL: the path ends with `thumbnail`, the `file` parameter is
present and non-empty, and the `type` parameter is `avatar` or `persona`. -/
def queryFormMatch (u : URLParts) : Bool :=
  (strEndsWith u.pathname "/thumbnail" || strEndsWith u.pathname "thumbnail") &&
  jsTruthy (searchGet u "file") &&
  (decide (searchGet u "type" = some "avatar") || decide (searchGet u "type" = some "persona"))

/-! ## The URL translator of `src/index.js` (lazy version) -/

namespace IndexJs

/-- `toHDSrc` of `src/index.js`: convert a thumbnail URL to the
full-resolution URL, or `null` when the input is falsy, unparsable, or
matches no recognized pattern.  The `/thumbnail` query branch performs three
early returns (`null` on a falsy `file`, the persona target, the character
target) and otherwise falls through to the two path-regex branches; the
early returns are encoded by the inner `Option (Option String)` match
(`some r` means "the branch returned `r`", `none` means fall-through). -/
def toHDSrc (src : String) : Option String :=
  if src = "" then none
  else
    match HDAvatar.parseURL src with
    | none => none
    | some url =>
      match
        (if strEndsWith url.pathname "/thumbnail" || strEndsWith url.pathname "thumbnail" then
          if jsTruthy (searchGet url "file") = false then some none
          else if searchGet url "type" = some "persona" then
            some (some ("/User Avatars/" ++ (searchGet url "file").getD ""))
          else if searchGet url "type" = some "avatar" then
            some (some ("/characters/" ++ (searchGet url "file").getD ""))
          else none
        else none : Option (Option String))
      with
      | some r => r
      | none =>
        match reMatchTail "/thumbnails/avatar/" url.pathname with
        | some rest => some ("/characters/" ++ rest)
        | none =>
          match reMatchTail "/thumbnails/persona/" url.pathname with
          | some rest => some ("/User Avatars/" ++ rest)
          | none => none

/-- `toHDSrc` applied to a nullable string (`img.getAttribute('src')` may be
`null`; `toHDSrc(null)` hits the `if (!src) return null` guard). -/
def toHDSrcOpt : Option String → Option String
  | none => none
  | some s => toHDSrc s

end IndexJs

/-! ## The URL translator of `src/unnamed/part_000` (earlier version) -/

namespace Part000

/-- `toHDSrc` of `src/unnamed/part_000`: same URL parsing, but the
`/thumbnail` query branch only handles `type === 'avatar' && file` (no
persona handling, and no early `null` return on a missing file — it falls
through), and only the avatar path regex is tried. -/
def toHDSrc (src : String) : Option String :=
  if src = "" then none
  else
    match HDAvatar.parseURL src with
    | none => none
    | some url =>
      match
        (if strEndsWith url.pathname "/thumbnail" || strEndsWith url.pathname "thumbnail" then
          if searchGet url "type" = some "avatar" ∧ jsTruthy (searchGet url "file") = true then
            some ("/characters/" ++ (searchGet url "file").getD "")
          else none
        else none : Option String)
      with
      | some r => some r
      | none =>
        match reMatchTail "/thumbnails/avatar/" url.pathname with
        | some rest => some ("/characters/" ++ rest)
        | none => none

/-- `toHDSrc` applied to a nullable string. -/
def toHDSrcOpt : Option String → Option String
  | none => none
  | some s => toHDSrc s

end Part000

/-! ## Per-image state -/

/-- The rendered/intrinsic size metrics of an `<img>` element that
`isBigEnough` reads. -/
structure Dims where
  offsetWidth : Nat
  clientWidth : Nat
  naturalWidth : Nat
  offsetHeight : Nat
  clientHeight : Nat
  naturalHeight : Nat
deriving DecidableEq

/-- The pending one-shot `error` listeners installed by the scripts, with
the values their closures captured.  `first` is the listener installed by
`swapSrc` (capturing the candidate `hd` and the original source), `second`
is the retry listener it installs on failure (capturing the original
source).  `datasetRestore` is the listener of `part_000`'s `upgradeImg`,
which reads `img.dataset.originalSrc` at fire time instead of a captured
value. -/
inductive Handler where
  | first (hd original : String)
  | second (original : String)
  | datasetRestore
deriving DecidableEq

/-- The state of one `<img>` element as the scripts see it: the `src`
attribute (`getAttribute` may return `null`), the `data-hd-upgraded` and
`data-original-src` dataset entries, whether the element is currently
observed by the lazy IntersectionObserver, the pending one-shot error
listeners in registration order, and its size metrics. -/
structure Img where
  src : Option String
  hdUpgraded : Option String := none
  originalSrc : Option String := none
  observed : Bool := false
  handlers : List Handler := []
  dims : Dims
deriving DecidableEq

/-- `MIN_DISPLAY_SIZE` of `src/index.js`. -/
def MIN_DISPLAY_SIZE : Nat := 32

/-- `img.offsetWidth || img.clientWidth || img.naturalWidth || 0`. -/
def effWidth (d : Dims) : Nat :=
  jsOrNat d.offsetWidth (jsOrNat d.clientWidth (jsOrNat d.naturalWidth 0))

/-- `img.offsetHeight || img.clientHeight || img.naturalHeight || 0`. -/
def effHeight (d : Dims) : Nat :=
  jsOrNat d.offsetHeight (jsOrNat d.clientHeight (jsOrNat d.naturalHeight 0))

/-- The size test of `isBigEnough`, on the metrics:
`w >= MIN_DISPLAY_SIZE || h >= MIN_DISPLAY_SIZE`. -/
def bigDims (d : Dims) : Bool :=
  decide (MIN_DISPLAY_SIZE ≤ effWidth d) || decide (MIN_DISPLAY_SIZE ≤ effHeight d)

namespace IndexJs

/-- `isBigEnough` of `src/index.js`, reading the element's metrics. -/
def isBigEnough (img : Img) : Bool :=
  bigDims img.dims

/-- `swapSrc` of `src/index.js`.  Returns `some` of the updated image when a
source assignment occurred (so that the caller can deliver the resulting
mutation record), `none` when the function returned early without touching
the element (`toHDSrc` gave no match).  When it proceeds it installs the
first one-shot error listener, sets `data-hd-upgraded = '1'`,
records `data-original-src`, and assigns the candidate source. -/
def swapSrc (img : Img) : Option Img :=
  match jsOrS img.originalSrc img.src with
  | none => none
  | some original =>
    match toHDSrc original with
    | none => none
    | some hd =>
      some { img with
        handlers := img.handlers ++ [Handler.first hd original]
        hdUpgraded := some "1"
        originalSrc := some original
        src := some hd }

/-- `scheduleUpgrade` of `src/index.js`: skip when `data-hd-upgraded` is
truthy or the source does not translate, otherwise mark `queued` and either
start observing (`io = true`, IntersectionObserver available) or fall back
to an immediate size check and swap.  (In the fallback branch the
subsequent asynchronous mutation delivery is handled by the event layer;
no theorem below exercises that branch.) -/
def scheduleUpgrade (io : Bool) (img : Img) : Img :=
  if jsTruthy img.hdUpgraded then img
  else
    match toHDSrcOpt img.src with
    | none => img
    | some _ =>
      let iq := { img with hdUpgraded := some "queued" }
      if io then { iq with observed := true }
      else if isBigEnough iq then (swapSrc iq).getD iq else iq

/-- The MutationObserver callback of `src/index.js` for a `src` attribute
record on an `<img>`: when `data-hd-upgraded` is truthy and not `'err'`,
delete it and unobserve; then always feed the image back to
`scheduleUpgrade`.  The lazy script runs with IntersectionObserver
available, so the re-feed uses `io = true`. -/
def reactSrc (img : Img) : Img :=
  let cleared :=
    if jsTruthy img.hdUpgraded = true ∧ img.hdUpgraded ≠ some "err" then
      { img with hdUpgraded := none, observed := false }
    else img
  scheduleUpgrade true cleared

/-- Fire one pending one-shot error listener, with the semantics of the
closures in `swapSrc` (and of `upgradeImg` for `datasetRestore`):

* `first hd original` — `onError`: if `hd` contains `/characters/`, install
  the second one-shot listener and retry with
  `/User Avatars/` + `hd.split('/characters/')[1]`; otherwise restore the
  captured original and set `data-hd-upgraded = 'err'`.
* `second original` — restore the captured original, set `'err'`.
* `datasetRestore` — restore `img.dataset.originalSrc` (read at fire time;
  an absent entry would coerce to `"undefined"`), set `'err'`. -/
def runHandler (h : Handler) (img : Img) : Img :=
  match h with
  | Handler.first hd original =>
    if jsIncludes hd "/characters/" then
      { img with
        handlers := img.handlers ++ [Handler.second original]
        src := some ("/User Avatars/" ++ jsSplitSecond hd "/characters/") }
    else
      { img with src := some original, hdUpgraded := some "err" }
  | Handler.second original =>
    { img with src := some original, hdUpgraded := some "err" }
  | Handler.datasetRestore =>
    { img with src := some ((img.originalSrc).getD "undefined"), hdUpgraded := some "err" }

/-- The events that can reach one image:

* `schedule` — the image is fed to `scheduleUpgrade` (initial scan, or a
  node-insertion mutation);
* `intersect b` — the IntersectionObserver reports the image with
  `isIntersecting = b` (only observed images receive entries); when
  intersecting, the callback unobserves and, if `isBigEnough`, calls
  `swapSrc`;
* `errorFire` — the image's current load fails, firing the pending
  one-shot error listeners (listeners added during dispatch do not run for
  the same event);
* `resize d` — the layout changes the element's metrics (touches nothing
  the scripts manage);
* `setSrc s` — the host page externally sets the `src` attribute.

Every `src` assignment is followed by the MutationObserver delivery
(`reactSrc`), see the modelling notes. -/
inductive Ev where
  | schedule
  | intersect (isIntersecting : Bool)
  | errorFire
  | resize (d : Dims)
  | setSrc (s : Option String)
deriving DecidableEq

/-- One event step of the lazy pipeline. -/
def step (img : Img) : Ev → Img
  | Ev.schedule => scheduleUpgrade true img
  | Ev.intersect b =>
    if img.observed then
      if b then
        let iu := { img with observed := false }
        if isBigEnough iu then
          match swapSrc iu with
          | some iw => reactSrc iw
          | none => iu
        else iu
      else img
    else img
  | Ev.errorFire =>
    let hs := img.handlers
    let fired := hs.foldl (fun a h => runHandler h a) { img with handlers := [] }
    Nat.iterate reactSrc hs.length fired
  | Ev.resize d => { img with dims := d }
  | Ev.setSrc s => reactSrc { img with src := s }

/-- Run a trace of events. -/
def run (img : Img) (evs : List Ev) : Img :=
  evs.foldl step img

/-- A freshly inserted image carrying source `s`, not yet touched by the
scripts. -/
def initImg (s : String) (d : Dims) : Img :=
  { src := some s, hdUpgraded := none, originalSrc := none
    observed := false, handlers := [], dims := d }

end IndexJs

namespace Part000

/-- `upgradeImg` of `src/unnamed/part_000`: skip when `data-hd-upgraded` is
truthy or the source does not translate; otherwise set
`data-hd-upgraded = '1'`, record `data-original-src` (the source reads the
resolved `img.src` property; the model keeps the attribute value, the
difference being immaterial to the statements below), install the one-shot
restore listener, and assign the candidate. -/
def upgradeImg (img : Img) : Img :=
  if jsTruthy img.hdUpgraded then img
  else
    match toHDSrcOpt img.src with
    | none => img
    | some hd =>
      { img with
        hdUpgraded := some "1"
        originalSrc := img.src
        handlers := img.handlers ++ [Handler.datasetRestore]
        src := some hd }

end Part000

/-! # Theorems -/

/-! ## Helper lemmas -/

/-- The empty source string parses to the bare origin path. -/
theorem parseURL_empty : parseURL "" = some ⟨"/", []⟩ := by decide

/-- A `/characters/`-prefixed candidate always satisfies the
`hd.includes('/characters/')` retry test. -/
theorem jsIncludes_characters (f : String) :
    jsIncludes ("/characters/" ++ f) "/characters/" = true := by
  cases f with
  | mk data => rfl

/-- Metrics with both effective dimensions below the minimum fail the
`isBigEnough` test. -/
theorem small_bigDims (d : Dims)
    (hw : effWidth d < MIN_DISPLAY_SIZE) (hh : effHeight d < MIN_DISPLAY_SIZE) :
    bigDims d = false := by
  simp only [bigDims, Bool.or_eq_false_iff, decide_eq_false_iff_not]
  omega

namespace IndexJs

/-- One step of the lazy pipeline on an image with no pending listeners and
too-small metrics changes neither the source, nor the listener list, nor
the smallness of the metrics (external source writes excluded; resizes stay
small). -/
theorem step_keeps_small (img : Img) (e : Ev)
    (hh : img.handlers = [])
    (hsm : bigDims img.dims = false)
    (he : match e with
      | Ev.setSrc _ => False
      | Ev.resize dd => bigDims dd = false
      | _ => True) :
    (step img e).handlers = [] ∧ bigDims (step img e).dims = false ∧
    (step img e).src = img.src := by
  cases e with
  | schedule =>
    simp only [step, scheduleUpgrade]
    split
    · simp [hh, hsm]
    · split <;> simp [hh, hsm]
  | intersect b =>
    simp only [step]
    split
    · split
      · rw [if_neg (by simp [isBigEnough, hsm])]
        simp [hh, hsm]
      · simp [hh, hsm]
    · simp [hh, hsm]
  | errorFire =>
    simp only [step]
    simp [hh, Nat.iterate, hsm]
  | resize dd =>
    simp only [step] at he ⊢
    simp [hh, he]
  | setSrc s => exact absurd he (by simp)

/-- Trace closure of `step_keeps_small`: the source attribute survives any
trace of non-`setSrc`, small-resize events. -/
theorem run_keeps_small (img : Img) (evs : List Ev)
    (hh : img.handlers = [])
    (hsm : bigDims img.dims = false)
    (hevs : ∀ e ∈ evs, match e with
      | Ev.setSrc _ => False
      | Ev.resize dd => bigDims dd = false
      | _ => True) :
    (run img evs).src = img.src := by
  induction evs generalizing img with
  | nil => rfl
  | cons e rest ih =>
    have he := hevs e (by simp)
    have hstep := step_keeps_small img e hh hsm he
    have := ih (step img e) hstep.1 hstep.2.1 (fun e2 he2 => hevs e2 (by simp [he2]))
    calc (run img (e :: rest)).src = (run (step img e) rest).src := rfl
      _ = (step img e).src := this
      _ = img.src := hstep.2.2

/-- One step of the lazy pipeline on a parked image (marked `queued`, not
observed, no pending listeners) is a no-op on everything the scripts
manage, for every event except an external source write. -/
theorem step_keeps_parked (img : Img) (e : Ev)
    (hq : img.hdUpgraded = some "queued")
    (ho : img.observed = false)
    (hh : img.handlers = [])
    (he : ∀ s, e ≠ Ev.setSrc s) :
    (step img e).hdUpgraded = some "queued" ∧ (step img e).observed = false ∧
    (step img e).handlers = [] ∧ (step img e).src = img.src := by
  cases e with
  | schedule =>
    simp only [step, scheduleUpgrade, hq, jsTruthy]
    simp [hq, ho, hh]
  | intersect b =>
    simp only [step, ho]
    simp [hq, ho, hh]
  | errorFire =>
    simp only [step]
    simp [hq, ho, hh, Nat.iterate]
  | resize dd =>
    simp only [step]
    simp [hq, ho, hh]
  | setSrc s => exact absurd rfl (he s)

/-- Trace closure of `step_keeps_parked`. -/
theorem run_keeps_parked (img : Img) (evs : List Ev)
    (hq : img.hdUpgraded = some "queued")
    (ho : img.observed = false)
    (hh : img.handlers = [])
    (hevs : ∀ e ∈ evs, ∀ s, e ≠ Ev.setSrc s) :
    (run img evs).src = img.src ∧ (run img evs).hdUpgraded = some "queued" := by
  induction evs generalizing img with
  | nil => exact ⟨rfl, hq⟩
  | cons e rest ih =>
    have he := hevs e (by simp)
    have hstep := step_keeps_parked img e hq ho hh he
    have := ih (step img e) hstep.1 hstep.2.1 hstep.2.2.1
      (fun e2 he2 => hevs e2 (by simp [he2]))
    refine ⟨?_, this.2⟩
    calc (run (step img e) rest).src = (step img e).src := this.1
      _ = img.src := hstep.2.2.2

end IndexJs

/-! ## Claim theorems -/

/-- C1: for every query-form thumbnail source string (parsed path ending in
`thumbnail`) with a non-empty `file` parameter, the URL Translator
(`toHDSrc` of `src/index.js`, whose behaviour the spec's unified Translator
describes) returns `/characters/<file>` when the `type` parameter is
`avatar`, and `/User Avatars/<file>` when it is `persona`. -/
theorem c1_query_form_translation (src : String) (u : URLParts) (f : String)
    (hp : parseURL src = some u)
    (hend : strEndsWith u.pathname "thumbnail" = true)
    (hf : searchGet u "file" = some f)
    (hfne : f ≠ "") :
    (searchGet u "type" = some "avatar" →
      IndexJs.toHDSrc src = some ("/characters/" ++ f)) ∧
    (searchGet u "type" = some "persona" →
      IndexJs.toHDSrc src = some ("/User Avatars/" ++ f)) := by
  have hsrc : src ≠ "" := by
    intro h
    subst h
    rw [parseURL_empty] at hp
    injection hp with hu
    subst hu
    exact absurd hend (by decide)
  constructor
  · intro ht
    simp only [IndexJs.toHDSrc, if_neg hsrc, hp, hend, Bool.or_true, if_pos rfl,
      hf, ht, jsTruthy, if_neg hfne]
    simp
  · intro ht
    simp only [IndexJs.toHDSrc, if_neg hsrc, hp, hend, Bool.or_true, if_pos rfl,
      hf, ht, jsTruthy, if_neg hfne]
    simp

/-- Witness for C1 at the two scenario inputs of the spec. -/
theorem c1_query_form_translation_witness :
    IndexJs.toHDSrc "/thumbnail?type=avatar&file=Alice.png" = some "/characters/Alice.png" ∧
    IndexJs.toHDSrc "/thumbnail?type=persona&file=Bob.png" = some "/User Avatars/Bob.png" :=
  ⟨(c1_query_form_translation "/thumbnail?type=avatar&file=Alice.png"
      ⟨"/thumbnail", [("type", "avatar"), ("file", "Alice.png")]⟩ "Alice.png"
      (by decide) (by decide) (by decide) (by decide)).1 (by decide),
   (c1_query_form_translation "/thumbnail?type=persona&file=Bob.png"
      ⟨"/thumbnail", [("type", "persona"), ("file", "Bob.png")]⟩ "Bob.png"
      (by decide) (by decide) (by decide) (by decide)).2 (by decide)⟩

/-- C2: when the source translates to a `/characters/<file>` candidate and
both the candidate and the `/User Avatars/` retry fail to load, the
controller restores the recorded original thumbnail URL into the `src`
attribute and marks the image with the terminal `err` value.  No error is
raised to any caller: the whole run is a total function on image states. -/
theorem c2_double_failure_restores_original (s f : String) (d : Dims)
    (hs : IndexJs.toHDSrc s = some ("/characters/" ++ f))
    (hbig : bigDims d = true) :
    (IndexJs.run (IndexJs.initImg s d)
      [IndexJs.Ev.schedule, IndexJs.Ev.intersect true,
       IndexJs.Ev.errorFire, IndexJs.Ev.errorFire]).src = some s ∧
    (IndexJs.run (IndexJs.initImg s d)
      [IndexJs.Ev.schedule, IndexJs.Ev.intersect true,
       IndexJs.Ev.errorFire, IndexJs.Ev.errorFire]).originalSrc = some s ∧
    (IndexJs.run (IndexJs.initImg s d)
      [IndexJs.Ev.schedule, IndexJs.Ev.intersect true,
       IndexJs.Ev.errorFire, IndexJs.Ev.errorFire]).hdUpgraded = some "err" := by
  cases hX : IndexJs.toHDSrc ("/characters/" ++ f) <;>
  cases hY : IndexJs.toHDSrc
      ("/User Avatars/" ++ jsSplitSecond ("/characters/" ++ f) "/characters/") <;>
  simp [IndexJs.run, IndexJs.step, IndexJs.scheduleUpgrade, IndexJs.swapSrc,
    IndexJs.reactSrc, IndexJs.runHandler, IndexJs.initImg, IndexJs.isBigEnough,
    IndexJs.toHDSrcOpt, jsTruthy, jsOrS, Nat.iterate, jsIncludes_characters,
    hs, hX, hY, hbig]

/-- Witness for C2 at the spec's scenario input. -/
theorem c2_double_failure_restores_original_witness :
    (IndexJs.run (IndexJs.initImg "/thumbnail?type=avatar&file=Missing.png" ⟨48, 0, 0, 48, 0, 0⟩)
      [IndexJs.Ev.schedule, IndexJs.Ev.intersect true,
       IndexJs.Ev.errorFire, IndexJs.Ev.errorFire]).src
        = some "/thumbnail?type=avatar&file=Missing.png" ∧
    (IndexJs.run (IndexJs.initImg "/thumbnail?type=avatar&file=Missing.png" ⟨48, 0, 0, 48, 0, 0⟩)
      [IndexJs.Ev.schedule, IndexJs.Ev.intersect true,
       IndexJs.Ev.errorFire, IndexJs.Ev.errorFire]).originalSrc
        = some "/thumbnail?type=avatar&file=Missing.png" ∧
    (IndexJs.run (IndexJs.initImg "/thumbnail?type=avatar&file=Missing.png" ⟨48, 0, 0, 48, 0, 0⟩)
      [IndexJs.Ev.schedule, IndexJs.Ev.intersect true,
       IndexJs.Ev.errorFire, IndexJs.Ev.errorFire]).hdUpgraded = some "err" :=
  c2_double_failure_restores_original "/thumbnail?type=avatar&file=Missing.png" "Missing.png"
    ⟨48, 0, 0, 48, 0, 0⟩ (by decide) (by decide)

/-- C3, counterexample: the claim says the retry uses the same filename as
the failed `/characters/<file>` candidate, but the code computes the retry
name as `hd.split('/characters/')[1]`, which stops at a second
`/characters/` occurrence inside the filename.  For the source
`/thumbnails/avatar/A/characters/B.png` the assigned candidate is
`/characters/A/characters/B.png`, and the retry goes to `/User Avatars/A`
instead of `/User Avatars/A/characters/B.png`. -/
theorem c3_counterexample :
    IndexJs.toHDSrc "/thumbnails/avatar/A/characters/B.png"
      = some "/characters/A/characters/B.png" ∧
    (IndexJs.run (IndexJs.initImg "/thumbnails/avatar/A/characters/B.png" ⟨48, 0, 0, 48, 0, 0⟩)
      [IndexJs.Ev.schedule, IndexJs.Ev.intersect true, IndexJs.Ev.errorFire]).src
        = some "/User Avatars/A" ∧
    (IndexJs.run (IndexJs.initImg "/thumbnails/avatar/A/characters/B.png" ⟨48, 0, 0, 48, 0, 0⟩)
      [IndexJs.Ev.schedule, IndexJs.Ev.intersect true, IndexJs.Ev.errorFire]).src
        ≠ some "/User Avatars/A/characters/B.png" := by
  decide

/-- C3, amended: when an assigned `/characters/<file>` candidate fails, the
controller retries exactly once with `/User Avatars/` followed by
`hd.split('/characters/')[1]` (equal to the filename whenever the filename
does not itself contain `/characters/`), and installs a second one-shot
failure listener capturing the original source.  No distinct `retrying`
state value is recorded: the controller's own source write has already been
seen by the mutation watcher, which cleared the upgraded marker, so the
metadata flag is absent during the retry (hypotheses `hX`/`hY` pin the two
candidate strings as non-retranslatable, which holds for every ordinary
filename). -/
theorem c3_retry_amended (s f : String) (d : Dims)
    (hs : IndexJs.toHDSrc s = some ("/characters/" ++ f))
    (hbig : bigDims d = true)
    (hX : IndexJs.toHDSrc ("/characters/" ++ f) = none)
    (hY : IndexJs.toHDSrc
      ("/User Avatars/" ++ jsSplitSecond ("/characters/" ++ f) "/characters/") = none) :
    (IndexJs.run (IndexJs.initImg s d)
      [IndexJs.Ev.schedule, IndexJs.Ev.intersect true, IndexJs.Ev.errorFire]).src
        = some ("/User Avatars/" ++ jsSplitSecond ("/characters/" ++ f) "/characters/") ∧
    (IndexJs.run (IndexJs.initImg s d)
      [IndexJs.Ev.schedule, IndexJs.Ev.intersect true, IndexJs.Ev.errorFire]).handlers
        = [Handler.second s] ∧
    (IndexJs.run (IndexJs.initImg s d)
      [IndexJs.Ev.schedule, IndexJs.Ev.intersect true, IndexJs.Ev.errorFire]).hdUpgraded
        = none := by
  simp [IndexJs.run, IndexJs.step, IndexJs.scheduleUpgrade, IndexJs.swapSrc,
    IndexJs.reactSrc, IndexJs.runHandler, IndexJs.initImg, IndexJs.isBigEnough,
    IndexJs.toHDSrcOpt, jsTruthy, jsOrS, Nat.iterate, jsIncludes_characters,
    hs, hX, hY, hbig]

/-- Witness for the amended C3 at the spec's retry scenario input. -/
theorem c3_retry_amended_witness :
    (IndexJs.run (IndexJs.initImg "/thumbnail?type=avatar&file=Bob.png" ⟨48, 0, 0, 48, 0, 0⟩)
      [IndexJs.Ev.schedule, IndexJs.Ev.intersect true, IndexJs.Ev.errorFire]).src
        = some "/User Avatars/Bob.png" ∧
    (IndexJs.run (IndexJs.initImg "/thumbnail?type=avatar&file=Bob.png" ⟨48, 0, 0, 48, 0, 0⟩)
      [IndexJs.Ev.schedule, IndexJs.Ev.intersect true, IndexJs.Ev.errorFire]).handlers
        = [Handler.second "/thumbnail?type=avatar&file=Bob.png"] ∧
    (IndexJs.run (IndexJs.initImg "/thumbnail?type=avatar&file=Bob.png" ⟨48, 0, 0, 48, 0, 0⟩)
      [IndexJs.Ev.schedule, IndexJs.Ev.intersect true, IndexJs.Ev.errorFire]).hdUpgraded
        = none := by
  have h := c3_retry_amended "/thumbnail?type=avatar&file=Bob.png" "Bob.png"
    ⟨48, 0, 0, 48, 0, 0⟩ (by decide) (by decide) (by decide) (by decide)
  rw [show "/User Avatars/" ++ jsSplitSecond ("/characters/" ++ "Bob.png") "/characters/"
      = "/User Avatars/Bob.png" from by decide] at h
  exact h

/-- C4, counterexample: the claim says an external source change on an
image in `error` state resets the state to unset and restarts the cycle,
but the mutation watcher explicitly excludes `'err'` from the reset
(`img.dataset.hdUpgraded !== 'err'`), and `scheduleUpgrade` then returns
early on the truthy flag: after the external write of a perfectly
translatable new thumbnail source, the state is still `err` and the image
is not queued or observed. -/
theorem c4_counterexample :
    IndexJs.toHDSrc "/thumbnail?type=avatar&file=New.png" = some "/characters/New.png" ∧
    (IndexJs.step
      { src := some "/thumbnail?type=avatar&file=Old.png", hdUpgraded := some "err",
        originalSrc := some "/thumbnail?type=avatar&file=Old.png", observed := false,
        handlers := [], dims := ⟨48, 0, 0, 48, 0, 0⟩ }
      (IndexJs.Ev.setSrc (some "/thumbnail?type=avatar&file=New.png"))).hdUpgraded
        = some "err" ∧
    (IndexJs.step
      { src := some "/thumbnail?type=avatar&file=Old.png", hdUpgraded := some "err",
        originalSrc := some "/thumbnail?type=avatar&file=Old.png", observed := false,
        handlers := [], dims := ⟨48, 0, 0, 48, 0, 0⟩ }
      (IndexJs.Ev.setSrc (some "/thumbnail?type=avatar&file=New.png"))).observed = false := by
  decide

/-- C4, amended: for an image whose state is `err`, an external change of
the source attribute leaves everything the scripts manage unchanged except
the new attribute value itself — the state stays `err` and no new upgrade
cycle starts.  (The reset-and-restart of the mutation watcher applies only
to images whose state is neither unset nor `err`.) -/
theorem c4_error_state_sticky (img : Img) (s : Option String)
    (herr : img.hdUpgraded = some "err") :
    IndexJs.step img (IndexJs.Ev.setSrc s) = { img with src := s } := by
  simp [IndexJs.step, IndexJs.reactSrc, IndexJs.scheduleUpgrade, herr, jsTruthy]

/-- Witness for the amended C4. -/
theorem c4_error_state_sticky_witness :
    IndexJs.step
      { src := some "/thumbnail?type=avatar&file=Old.png", hdUpgraded := some "err",
        originalSrc := some "/thumbnail?type=avatar&file=Old.png", observed := false,
        handlers := [], dims := ⟨48, 0, 0, 48, 0, 0⟩ }
      (IndexJs.Ev.setSrc (some "/thumbnail?type=avatar&file=New.png"))
    = { src := some "/thumbnail?type=avatar&file=New.png", hdUpgraded := some "err",
        originalSrc := some "/thumbnail?type=avatar&file=Old.png", observed := false,
        handlers := [], dims := ⟨48, 0, 0, 48, 0, 0⟩ } :=
  c4_error_state_sticky
    { src := some "/thumbnail?type=avatar&file=Old.png", hdUpgraded := some "err",
      originalSrc := some "/thumbnail?type=avatar&file=Old.png", observed := false,
      handlers := [], dims := ⟨48, 0, 0, 48, 0, 0⟩ }
    (some "/thumbnail?type=avatar&file=New.png") rfl

/-- C5: feeding an image whose state is already `1` (upgraded), `queued`,
or `err` to the Upgrade Controller — `scheduleUpgrade` of `src/index.js`
(in either lazy or fallback mode) or `upgradeImg` of
`src/unnamed/part_000` — is a no-op: the whole image state, in particular
its source attribute and metadata flags, is returned unchanged. -/
theorem c5_controller_idempotent (img : Img) (v : String) (io : Bool)
    (hv : img.hdUpgraded = some v)
    (hstates : v = "1" ∨ v = "queued" ∨ v = "err") :
    IndexJs.scheduleUpgrade io img = img ∧ Part000.upgradeImg img = img := by
  have htr : jsTruthy img.hdUpgraded = true := by
    rw [hv]
    rcases hstates with h | h | h <;> subst h <;> decide
  constructor
  · simp [IndexJs.scheduleUpgrade, htr]
  · simp [Part000.upgradeImg, htr]

/-- Witness for C5 on an already-upgraded image. -/
theorem c5_controller_idempotent_witness :
    IndexJs.scheduleUpgrade true
      { src := some "/characters/Alice.png", hdUpgraded := some "1",
        originalSrc := some "/thumbnail?type=avatar&file=Alice.png", observed := false,
        handlers := [], dims := ⟨48, 0, 0, 48, 0, 0⟩ }
      = { src := some "/characters/Alice.png", hdUpgraded := some "1",
          originalSrc := some "/thumbnail?type=avatar&file=Alice.png", observed := false,
          handlers := [], dims := ⟨48, 0, 0, 48, 0, 0⟩ } ∧
    Part000.upgradeImg
      { src := some "/characters/Alice.png", hdUpgraded := some "1",
        originalSrc := some "/thumbnail?type=avatar&file=Alice.png", observed := false,
        handlers := [], dims := ⟨48, 0, 0, 48, 0, 0⟩ }
      = { src := some "/characters/Alice.png", hdUpgraded := some "1",
          originalSrc := some "/thumbnail?type=avatar&file=Alice.png", observed := false,
          handlers := [], dims := ⟨48, 0, 0, 48, 0, 0⟩ } :=
  c5_controller_idempotent
    { src := some "/characters/Alice.png", hdUpgraded := some "1",
      originalSrc := some "/thumbnail?type=avatar&file=Alice.png", observed := false,
      handlers := [], dims := ⟨48, 0, 0, 48, 0, 0⟩ }
    "1" true rfl (Or.inl rfl)

/-- C6, counterexample: the claim says every path-form string
`/thumbnails/avatar/<rest>` translates to `/characters/<rest>`, but for
`rest = "thumbnail"` the path also ends in `thumbnail`, so the query-form
branch fires first and returns null on the absent `file` parameter — the
path-form string translates to no match instead of
`/characters/thumbnail`. -/
theorem c6_counterexample :
    reMatchTail "/thumbnails/avatar/" "/thumbnails/avatar/thumbnail" = some "thumbnail" ∧
    IndexJs.toHDSrc "/thumbnails/avatar/thumbnail" = none ∧
    IndexJs.toHDSrc "/thumbnails/avatar/thumbnail" ≠ some "/characters/thumbnail" := by
  decide

/-- C6, amended: for every source string whose parsed path does not end in
`thumbnail` (otherwise the query-form branch takes precedence), a path
matching `/thumbnails/avatar/<rest>` translates to `/characters/<rest>`,
and a path matching `/thumbnails/persona/<rest>` but not the avatar pattern
(which is tried first) translates to `/User Avatars/<rest>`. -/
theorem c6_path_form_amended (src : String) (u : URLParts) (rest : String)
    (hp : parseURL src = some u)
    (hend1 : strEndsWith u.pathname "/thumbnail" = false)
    (hend2 : strEndsWith u.pathname "thumbnail" = false) :
    (reMatchTail "/thumbnails/avatar/" u.pathname = some rest →
      IndexJs.toHDSrc src = some ("/characters/" ++ rest)) ∧
    (reMatchTail "/thumbnails/avatar/" u.pathname = none →
      reMatchTail "/thumbnails/persona/" u.pathname = some rest →
      IndexJs.toHDSrc src = some ("/User Avatars/" ++ rest)) := by
  constructor
  · intro hm
    by_cases hsrc : src = ""
    · exfalso
      subst hsrc
      rw [parseURL_empty] at hp
      injection hp with hu
      subst hu
      rw [show reMatchTail "/thumbnails/avatar/" (URLParts.mk "/" []).pathname = none from
        by decide] at hm
      exact Option.noConfusion hm
    · simp only [IndexJs.toHDSrc, if_neg hsrc, hp, hend1, hend2, Bool.or_self, hm]
      simp
  · intro hav hper
    by_cases hsrc : src = ""
    · exfalso
      subst hsrc
      rw [parseURL_empty] at hp
      injection hp with hu
      subst hu
      rw [show reMatchTail "/thumbnails/persona/" (URLParts.mk "/" []).pathname = none from
        by decide] at hper
      exact Option.noConfusion hper
    · simp only [IndexJs.toHDSrc, if_neg hsrc, hp, hend1, hend2, Bool.or_self, hav, hper]
      simp

/-- Witness for the amended C6 on both path forms. -/
theorem c6_path_form_amended_witness :
    IndexJs.toHDSrc "/thumbnails/avatar/Cara.png" = some "/characters/Cara.png" ∧
    IndexJs.toHDSrc "/thumbnails/persona/Dee.png" = some "/User Avatars/Dee.png" :=
  ⟨(c6_path_form_amended "/thumbnails/avatar/Cara.png"
      ⟨"/thumbnails/avatar/Cara.png", []⟩ "Cara.png"
      (by decide) (by decide) (by decide)).1 (by decide),
   (c6_path_form_amended "/thumbnails/persona/Dee.png"
      ⟨"/thumbnails/persona/Dee.png", []⟩ "Dee.png"
      (by decide) (by decide) (by decide)).2 (by decide) (by decide)⟩

/-- C7: the URL Translator of `src/index.js` is a total function, and it
returns no match (`none`) whenever URL parsing fails, whenever the parsed
URL matches no recognized thumbnail pattern (neither the query form
`queryFormMatch` nor either path regex), and — unconditionally — whenever a
query-form string (path ending in `thumbnail`) lacks a truthy `file`
parameter, even if a path regex would match. -/
theorem c7_translator_total_no_match (src : String) :
    (parseURL src = none → IndexJs.toHDSrc src = none) ∧
    (∀ u, parseURL src = some u →
      (strEndsWith u.pathname "/thumbnail" || strEndsWith u.pathname "thumbnail") = true →
      jsTruthy (searchGet u "file") = false →
      IndexJs.toHDSrc src = none) ∧
    (∀ u, parseURL src = some u →
      queryFormMatch u = false →
      reMatchTail "/thumbnails/avatar/" u.pathname = none →
      reMatchTail "/thumbnails/persona/" u.pathname = none →
      IndexJs.toHDSrc src = none) := by
  refine ⟨?_, ?_, ?_⟩
  · intro h
    by_cases hsrc : src = ""
    · simp [IndexJs.toHDSrc, hsrc]
    · simp only [IndexJs.toHDSrc, if_neg hsrc, h]
  · intro u hp hend hfile
    have hsrc : src ≠ "" := by
      intro h
      subst h
      rw [parseURL_empty] at hp
      injection hp with hu
      subst hu
      exact absurd hend (by decide)
    simp only [IndexJs.toHDSrc, if_neg hsrc, hp, hend, if_pos rfl, hfile]
    simp
  · intro u hp hq hav hper
    by_cases hsrc : src = ""
    · simp [IndexJs.toHDSrc, hsrc]
    · cases hg : (strEndsWith u.pathname "/thumbnail" || strEndsWith u.pathname "thumbnail") with
      | false =>
        simp only [IndexJs.toHDSrc, if_neg hsrc, hp, hg, hav, hper]
        simp
      | true =>
        rw [queryFormMatch, hg] at hq
        simp only [Bool.true_and, Bool.and_eq_false_iff] at hq
        cases hq with
        | inl hfile =>
          simp only [IndexJs.toHDSrc, if_neg hsrc, hp, hg, if_pos rfl, hfile]
          simp
        | inr htype =>
          simp only [Bool.or_eq_false_iff, decide_eq_false_iff_not] at htype
          cases hfile : jsTruthy (searchGet u "file") with
          | false =>
            simp only [IndexJs.toHDSrc, if_neg hsrc, hp, hg, if_pos rfl, hfile]
            simp
          | true =>
            simp only [IndexJs.toHDSrc, if_neg hsrc, hp, hg, if_pos rfl, hfile,
              if_neg htype.2, if_neg htype.1, hav, hper]
            simp

/-- Witness for C7: a parse failure, a query form lacking `file`, and a
plain non-thumbnail path all yield no match. -/
theorem c7_translator_total_no_match_witness :
    IndexJs.toHDSrc "httpgarbage" = none ∧
    IndexJs.toHDSrc "/thumbnail?type=avatar" = none ∧
    IndexJs.toHDSrc "/plain/img.png" = none :=
  ⟨(c7_translator_total_no_match "httpgarbage").1 (by decide),
   (c7_translator_total_no_match "/thumbnail?type=avatar").2.1
     ⟨"/thumbnail", [("type", "avatar")]⟩ (by decide) (by decide) (by decide),
   (c7_translator_total_no_match "/plain/img.png").2.2
     ⟨"/plain/img.png", []⟩ (by decide) (by decide) (by decide) (by decide)⟩

/-- C8: in lazy mode, an image whose effective rendered dimensions (the
`offsetWidth || clientWidth || naturalWidth` fallback chain and its height
analogue) stay below `MIN_DISPLAY_SIZE` (32px) in both width and height
never has its source attribute changed by the system, regardless of its
viewport position: any trace of schedule, intersection (at any position),
small resize and load-error events leaves the attribute untouched. -/
theorem c8_small_image_never_swapped (img : Img) (evs : List IndexJs.Ev)
    (hh : img.handlers = [])
    (hw : effWidth img.dims < MIN_DISPLAY_SIZE)
    (hht : effHeight img.dims < MIN_DISPLAY_SIZE)
    (hevs : ∀ e ∈ evs, match e with
      | IndexJs.Ev.setSrc _ => False
      | IndexJs.Ev.resize dd =>
          effWidth dd < MIN_DISPLAY_SIZE ∧ effHeight dd < MIN_DISPLAY_SIZE
      | _ => True) :
    (IndexJs.run img evs).src = img.src := by
  apply IndexJs.run_keeps_small img evs hh (small_bigDims img.dims hw hht)
  intro e he
  have h2 := hevs e he
  cases e with
  | setSrc s => exact h2
  | resize dd => exact small_bigDims dd h2.1 h2.2
  | schedule => trivial
  | intersect b => trivial
  | errorFire => trivial

/-- Witness for C8: a 10×10 image scheduled, entering the viewport twice
around a (still small) resize, never loses its thumbnail source. -/
theorem c8_small_image_never_swapped_witness :
    (IndexJs.run (IndexJs.initImg "/thumbnail?type=avatar&file=Tiny.png" ⟨10, 0, 0, 10, 0, 0⟩)
      [IndexJs.Ev.schedule, IndexJs.Ev.intersect true, IndexJs.Ev.resize ⟨20, 0, 0, 20, 0, 0⟩,
       IndexJs.Ev.schedule, IndexJs.Ev.intersect true, IndexJs.Ev.errorFire]).src
      = some "/thumbnail?type=avatar&file=Tiny.png" :=
  c8_small_image_never_swapped
    (IndexJs.initImg "/thumbnail?type=avatar&file=Tiny.png" ⟨10, 0, 0, 10, 0, 0⟩)
    [IndexJs.Ev.schedule, IndexJs.Ev.intersect true, IndexJs.Ev.resize ⟨20, 0, 0, 20, 0, 0⟩,
     IndexJs.Ev.schedule, IndexJs.Ev.intersect true, IndexJs.Ev.errorFire]
    rfl (by decide) (by decide)
    (by
      intro e he
      fin_cases he
      · trivial
      · trivial
      · exact ⟨by decide, by decide⟩
      · trivial
      · trivial
      · trivial)

/-- C9, counterexample: the two evolutionary versions do not have unified
translator behaviour — `part_000` has no persona handling, so a persona
query-form string translates in `src/index.js` but not in
`src/unnamed/part_000`. -/
theorem c9_counterexample :
    IndexJs.toHDSrc "/thumbnail?type=persona&file=a.png" = some "/User Avatars/a.png" ∧
    Part000.toHDSrc "/thumbnail?type=persona&file=a.png" = none ∧
    IndexJs.toHDSrc "/thumbnail?type=persona&file=a.png"
      ≠ Part000.toHDSrc "/thumbnail?type=persona&file=a.png" := by
  decide

/-- C9, amended: the two translators agree on every source string that
fails to parse, on every parsed string whose path neither ends in
`thumbnail` nor matches the persona path pattern, and on every query-form
string with `type=avatar` and a non-empty `file`; they diverge on the
persona forms (handled only by `src/index.js`) and on `thumbnail`-suffixed
paths without the avatar query parameters. -/
theorem c9_translators_agree_amended (src : String) :
    (parseURL src = none → IndexJs.toHDSrc src = Part000.toHDSrc src) ∧
    (∀ u, parseURL src = some u →
      strEndsWith u.pathname "/thumbnail" = false →
      strEndsWith u.pathname "thumbnail" = false →
      reMatchTail "/thumbnails/persona/" u.pathname = none →
      IndexJs.toHDSrc src = Part000.toHDSrc src) ∧
    (∀ u f, parseURL src = some u →
      strEndsWith u.pathname "thumbnail" = true →
      searchGet u "type" = some "avatar" →
      searchGet u "file" = some f → f ≠ "" →
      IndexJs.toHDSrc src = Part000.toHDSrc src) := by
  refine ⟨?_, ?_, ?_⟩
  · intro h
    by_cases hsrc : src = ""
    · simp [IndexJs.toHDSrc, Part000.toHDSrc, hsrc]
    · simp only [IndexJs.toHDSrc, Part000.toHDSrc, if_neg hsrc, h]
  · intro u hp hend1 hend2 hper
    by_cases hsrc : src = ""
    · simp [IndexJs.toHDSrc, Part000.toHDSrc, hsrc]
    · simp only [IndexJs.toHDSrc, Part000.toHDSrc, if_neg hsrc, hp, hend1, hend2,
        Bool.or_self, hper]
      cases hav : reMatchTail "/thumbnails/avatar/" u.pathname <;> simp [hav]
  · intro u f hp hend ht hf hfne
    have hsrc : src ≠ "" := by
      intro h
      subst h
      rw [parseURL_empty] at hp
      injection hp with hu
      subst hu
      exact absurd hend (by decide)
    simp only [IndexJs.toHDSrc, Part000.toHDSrc, if_neg hsrc, hp, hend, Bool.or_true,
      if_pos rfl, ht, hf, jsTruthy, if_neg hfne]
    simp

/-- Witness for the amended C9: agreement on an avatar path form and an
avatar query form. -/
theorem c9_translators_agree_amended_witness :
    IndexJs.toHDSrc "/thumbnails/avatar/x.png" = Part000.toHDSrc "/thumbnails/avatar/x.png" ∧
    IndexJs.toHDSrc "/thumbnail?type=avatar&file=x.png"
      = Part000.toHDSrc "/thumbnail?type=avatar&file=x.png" :=
  ⟨(c9_translators_agree_amended "/thumbnails/avatar/x.png").2.1
      ⟨"/thumbnails/avatar/x.png", []⟩ (by decide) (by decide) (by decide) (by decide),
   (c9_translators_agree_amended "/thumbnail?type=avatar&file=x.png").2.2
      ⟨"/thumbnail", [("type", "avatar"), ("file", "x.png")]⟩ "x.png"
      (by decide) (by decide) (by decide) (by decide) (by decide)⟩

/-- C10: in the lazy version, an image that enters the viewport margin
while failing the minimum-size check is unobserved by the intersection
watcher but keeps state `queued`; from then on, no trace of events short of
an external source write — however large the image later becomes — ever
changes its source attribute or its state. -/
theorem c10_too_small_parked_forever (img : Img) (evs : List IndexJs.Ev)
    (hq : img.hdUpgraded = some "queued")
    (ho : img.observed = true)
    (hh : img.handlers = [])
    (hw : effWidth img.dims < MIN_DISPLAY_SIZE)
    (hht : effHeight img.dims < MIN_DISPLAY_SIZE)
    (hevs : ∀ e ∈ evs, ∀ s, e ≠ IndexJs.Ev.setSrc s) :
    (IndexJs.step img (IndexJs.Ev.intersect true)).observed = false ∧
    (IndexJs.step img (IndexJs.Ev.intersect true)).hdUpgraded = some "queued" ∧
    (IndexJs.step img (IndexJs.Ev.intersect true)).src = img.src ∧
    (IndexJs.run (IndexJs.step img (IndexJs.Ev.intersect true)) evs).src = img.src ∧
    (IndexJs.run (IndexJs.step img (IndexJs.Ev.intersect true)) evs).hdUpgraded
      = some "queued" := by
  have hsm := small_bigDims img.dims hw hht
  have h1 : IndexJs.step img (IndexJs.Ev.intersect true) = { img with observed := false } := by
    simp [IndexJs.step, ho, IndexJs.isBigEnough, hsm]
  have hrun := IndexJs.run_keeps_parked (IndexJs.step img (IndexJs.Ev.intersect true)) evs
    (by rw [h1]; exact hq) (by rw [h1]) (by rw [h1]; exact hh) hevs
  refine ⟨by rw [h1], by rw [h1]; exact hq, by rw [h1], ?_, hrun.2⟩
  calc (IndexJs.run (IndexJs.step img (IndexJs.Ev.intersect true)) evs).src
      = (IndexJs.step img (IndexJs.Ev.intersect true)).src := hrun.1
    _ = img.src := by rw [h1]

/-- Witness for C10: a parked 10×10 image later resized to 64×64,
rescheduled and re-intersected, keeps its thumbnail source and its
`queued` state. -/
theorem c10_too_small_parked_forever_witness :
    (IndexJs.run (IndexJs.step
        { src := some "/thumbnail?type=avatar&file=Tiny.png", hdUpgraded := some "queued",
          originalSrc := none, observed := true, handlers := [], dims := ⟨10, 0, 0, 10, 0, 0⟩ }
        (IndexJs.Ev.intersect true))
      [IndexJs.Ev.resize ⟨64, 0, 0, 64, 0, 0⟩, IndexJs.Ev.schedule,
       IndexJs.Ev.intersect true, IndexJs.Ev.errorFire]).src
      = some "/thumbnail?type=avatar&file=Tiny.png" ∧
    (IndexJs.run (IndexJs.step
        { src := some "/thumbnail?type=avatar&file=Tiny.png", hdUpgraded := some "queued",
          originalSrc := none, observed := true, handlers := [], dims := ⟨10, 0, 0, 10, 0, 0⟩ }
        (IndexJs.Ev.intersect true))
      [IndexJs.Ev.resize ⟨64, 0, 0, 64, 0, 0⟩, IndexJs.Ev.schedule,
       IndexJs.Ev.intersect true, IndexJs.Ev.errorFire]).hdUpgraded
      = some "queued" := by
  have h := c10_too_small_parked_forever
    { src := some "/thumbnail?type=avatar&file=Tiny.png", hdUpgraded := some "queued",
      originalSrc := none, observed := true, handlers := [], dims := ⟨10, 0, 0, 10, 0, 0⟩ }
    [IndexJs.Ev.resize ⟨64, 0, 0, 64, 0, 0⟩, IndexJs.Ev.schedule,
     IndexJs.Ev.intersect true, IndexJs.Ev.errorFire]
    rfl rfl rfl (by decide) (by decide)
    (by
      intro e he s
      fin_cases he <;> simp)
  exact ⟨h.2.2.2.1, h.2.2.2.2⟩

end HDAvatar
